import Mathlib

/-!
Shallow embedding of the signal-scoring and trade-parameter engine of the
crypto_analysis repository (trading_strategy_creator.py, batch_processor.py,
entry_exit_point_generator.py, technical_indicator_analyzer.py, config.py).

Python floats are modelled as exact rationals (ℚ).  Pandas `NaN` never
satisfies any `<`, `>`, `<=`, `>=` comparison, so an indicator cell that is
`NaN` behaves, for every threshold rule below, exactly like a mid-range value
failing both the bullish and the bearish test; modelling indicator cells as
plain rationals therefore loses no vote behaviour.  The `shift(1)` access to
the previous bar is modelled as an `Option` (none on the first bar, where the
shifted cell is `NaN` and every comparison is false).  A pandas cell that the
code deliberately sets to `NaN` to mean "absent" (entry/exit/stop on HOLD) is
modelled as `Option ℚ` with `none` for `NaN`.  `df.iloc[-2]` on a one-row
frame raises `IndexError`; fallible accesses are modelled with `Except`.
-/

namespace CryptoAnalysis

/-- A row of an analysis CSV: raw close plus the indicator columns consumed by
`generate_trading_signals` in trading_strategy_creator.py. -/
structure AnalysisRow where
  close : ℚ
  rsi : ℚ
  macd : ℚ
  macd_signal : ℚ
  bb_upper : ℚ
  bb_lower : ℚ
  sma_20 : ℚ
  sma_50 : ℚ
  stoch_k : ℚ
  stoch_d : ℚ
deriving DecidableEq

/-- trading_strategy_creator.py lines 27-29: RSI vote. -/
def rsi_vote (r : AnalysisRow) : ℤ :=
  if r.rsi < 30 then 1 else if r.rsi > 70 then -1 else 0

/-- trading_strategy_creator.py lines 32-34: MACD crossover vote; the shifted
previous bar is `none` on the first row (pandas `shift(1)` gives `NaN` there,
and comparisons with `NaN` are false). -/
def macd_cross_vote (prev : Option AnalysisRow) (cur : AnalysisRow) : ℤ :=
  match prev with
  | none => 0
  | some p =>
    if cur.macd > cur.macd_signal ∧ p.macd ≤ p.macd_signal then 1
    else if cur.macd < cur.macd_signal ∧ p.macd ≥ p.macd_signal then -1
    else 0

/-- trading_strategy_creator.py lines 37-39: Bollinger band vote. -/
def bb_vote (r : AnalysisRow) : ℤ :=
  if r.close < r.bb_lower then 1 else if r.close > r.bb_upper then -1 else 0

/-- trading_strategy_creator.py lines 42-44: moving-average crossover vote. -/
def ma_cross_vote (prev : Option AnalysisRow) (cur : AnalysisRow) : ℤ :=
  match prev with
  | none => 0
  | some p =>
    if cur.sma_20 > cur.sma_50 ∧ p.sma_20 ≤ p.sma_50 then 1
    else if cur.sma_20 < cur.sma_50 ∧ p.sma_20 ≥ p.sma_50 then -1
    else 0

/-- trading_strategy_creator.py lines 47-49: stochastic vote.  Note: the
source compares only the current bar (`stoch_k > stoch_d` resp. `<`), with no
`shift`; there is no crossover component. -/
def stoch_vote (r : AnalysisRow) : ℤ :=
  if r.stoch_k < 20 ∧ r.stoch_d < 20 ∧ r.stoch_k > r.stoch_d then 1
  else if r.stoch_k > 80 ∧ r.stoch_d > 80 ∧ r.stoch_k < r.stoch_d then -1
  else 0

/-- Weight dict of trading_strategy_creator.py lines 52-58. -/
def w_rsi : ℚ := 0.2
/-- Weight dict of trading_strategy_creator.py lines 52-58. -/
def w_macd : ℚ := 0.3
/-- Weight dict of trading_strategy_creator.py lines 52-58. -/
def w_bb : ℚ := 0.15
/-- Weight dict of trading_strategy_creator.py lines 52-58. -/
def w_ma : ℚ := 0.25
/-- Weight dict of trading_strategy_creator.py lines 52-58. -/
def w_stoch : ℚ := 0.1

/-- A row produced by `generate_trading_signals`: the analysis row extended
with the five vote columns, the composite signal, trend and confidence. -/
structure SignalRow where
  base : AnalysisRow
  rsi_signal : ℤ
  macd_cross_signal : ℤ
  bb_signal : ℤ
  ma_cross_signal : ℤ
  stoch_signal : ℤ
  composite_signal : ℚ
  signal_strength : ℚ
  trend : ℤ
  confidence : ℚ
deriving DecidableEq

/-- One row of the output of `generate_trading_signals`
(trading_strategy_creator.py lines 26-78): votes, weighted composite,
trend (1 iff composite ≥ 0.3, -1 iff ≤ -0.3, else 0) and confidence
`clip(|composite| * 100, 0, 100)`. -/
def mkSignalRow (prev : Option AnalysisRow) (cur : AnalysisRow) : SignalRow :=
  let v1 := rsi_vote cur
  let v2 := macd_cross_vote prev cur
  let v3 := bb_vote cur
  let v4 := ma_cross_vote prev cur
  let v5 := stoch_vote cur
  let cs : ℚ := (v1 : ℚ) * w_rsi + (v2 : ℚ) * w_macd + (v3 : ℚ) * w_bb +
    (v4 : ℚ) * w_ma + (v5 : ℚ) * w_stoch
  { base := cur
    rsi_signal := v1
    macd_cross_signal := v2
    bb_signal := v3
    ma_cross_signal := v4
    stoch_signal := v5
    composite_signal := cs
    signal_strength := cs
    trend := if cs ≥ 0.3 then 1 else if cs ≤ -0.3 then -1 else 0
    confidence := min 100 (max 0 (|cs| * 100)) }

/-- Row-wise pass of `generate_trading_signals` over the frame, threading the
previous bar (pandas `shift(1)`). -/
def signalRows (prev : Option AnalysisRow) : List AnalysisRow → List SignalRow
  | [] => []
  | r :: rest => mkSignalRow prev r :: signalRows (some r) rest

/-- trading_strategy_creator.py lines 13-80, `generate_trading_signals`:
returns `None` on an empty frame, else the frame extended with vote, composite,
trend and confidence columns. -/
def generate_trading_signals (df : List AnalysisRow) : Option (List SignalRow) :=
  match df with
  | [] => none
  | _ => some (signalRows none df)

/-- Ternary of trading_strategy_creator.py line 121 (also
entry_exit_point_generator.py line 230 and batch_processor.py line 164). -/
def signal_label (cs : ℚ) : String :=
  if cs > 0 then "BUY" else if cs < 0 then "SELL" else "HOLD"

/-- Ternary of trading_strategy_creator.py line 125, from the integer trend
column. -/
def trend_label (t : ℤ) : String :=
  if t = 1 then "UPTREND" else if t = -1 then "DOWNTREND" else "NEUTRAL"

/-- Signal summary record built from the latest row in
`create_trading_strategies` (trading_strategy_creator.py lines 118-126). -/
structure SignalSummary where
  coin : String
  price : ℚ
  signal : String
  signal_strength : ℚ
  confidence : ℚ
  rsi : ℚ
  trend : String
deriving DecidableEq

/-- trading_strategy_creator.py lines 118-126: summary of the latest row. -/
def mkSignalSummary (coin : String) (latest : SignalRow) : SignalSummary :=
  { coin := coin
    price := latest.base.close
    signal := signal_label latest.composite_signal
    signal_strength := latest.composite_signal
    confidence := latest.confidence
    rsi := latest.base.rsi
    trend := trend_label latest.trend }

/-! ### Batch variant (batch_processor.py) -/

/-- A row of a batch-analysis frame: the indicator columns consumed by
`generate_trading_signals_batch` in batch_processor.py (the reduced rule set
plus the SMAs used by its trend ternary). -/
structure BatchRow where
  close : ℚ
  rsi : ℚ
  macd : ℚ
  macd_signal : ℚ
  bb_upper : ℚ
  bb_lower : ℚ
  sma_20 : ℚ
  sma_50 : ℚ
deriving DecidableEq

/-- batch_processor.py lines 132-134: RSI vote of the reduced rule set. -/
def batch_rsi_vote (r : BatchRow) : ℤ :=
  if r.rsi < 30 then 1 else if r.rsi > 70 then -1 else 0

/-- batch_processor.py lines 137-139: MACD crossover vote of the reduced rule
set (`none` = first row, where `shift(1)` gives `NaN`). -/
def batch_macd_cross_vote (prev : Option BatchRow) (cur : BatchRow) : ℤ :=
  match prev with
  | none => 0
  | some p =>
    if cur.macd > cur.macd_signal ∧ p.macd ≤ p.macd_signal then 1
    else if cur.macd < cur.macd_signal ∧ p.macd ≥ p.macd_signal then -1
    else 0

/-- batch_processor.py lines 142-144: Bollinger vote of the reduced rule set. -/
def batch_bb_vote (r : BatchRow) : ℤ :=
  if r.close < r.bb_lower then 1 else if r.close > r.bb_upper then -1 else 0

/-- Weight dict of batch_processor.py lines 147-151. -/
def bw_rsi : ℚ := 0.3
/-- Weight dict of batch_processor.py lines 147-151. -/
def bw_macd : ℚ := 0.4
/-- Weight dict of batch_processor.py lines 147-151. -/
def bw_bb : ℚ := 0.3

/-- A row produced by `generate_trading_signals_batch`. -/
structure BatchSignalRow where
  base : BatchRow
  rsi_signal : ℤ
  macd_cross_signal : ℤ
  bb_signal : ℤ
  composite_signal : ℚ
deriving DecidableEq

/-- One row of the reduced signal pass (batch_processor.py lines 132-157). -/
def mkBatchSignalRow (prev : Option BatchRow) (cur : BatchRow) : BatchSignalRow :=
  let v1 := batch_rsi_vote cur
  let v2 := batch_macd_cross_vote prev cur
  let v3 := batch_bb_vote cur
  { base := cur
    rsi_signal := v1
    macd_cross_signal := v2
    bb_signal := v3
    composite_signal := (v1 : ℚ) * bw_rsi + (v2 : ℚ) * bw_macd + (v3 : ℚ) * bw_bb }

/-- Row-wise pass of `generate_trading_signals_batch`, threading the previous
bar. -/
def batchSignalRows (prev : Option BatchRow) : List BatchRow → List BatchSignalRow
  | [] => []
  | r :: rest => mkBatchSignalRow prev r :: batchSignalRows (some r) rest

/-- Summary record of batch_processor.py lines 161-168: note confidence is
`abs(composite) * 100` with no clip, and the trend ternary reads
`sma_20 > sma_50`, not the composite signal. -/
structure BatchSummary where
  coin : String
  price : ℚ
  signal : String
  confidence : ℚ
  rsi : ℚ
  trend : String
deriving DecidableEq

/-- batch_processor.py lines 161-168, summary of the latest row. -/
def mkBatchSummary (coin : String) (latest : BatchSignalRow) : BatchSummary :=
  { coin := coin
    price := latest.base.close
    signal := signal_label latest.composite_signal
    confidence := |latest.composite_signal| * 100
    rsi := latest.base.rsi
    trend := if latest.base.sma_20 > latest.base.sma_50 then "UPTREND" else "DOWNTREND" }

/-- batch_processor.py lines 121-170, `generate_trading_signals_batch`: `None`
on an empty/missing frame, else the extended frame plus the latest-row
summary. -/
def generate_trading_signals_batch (coin : String) (df : List BatchRow) :
    Option (List BatchSignalRow × BatchSummary) :=
  match df with
  | [] => none
  | d :: ds =>
    let rows := mkBatchSignalRow none d :: batchSignalRows (some d) ds
    some (rows, mkBatchSummary coin (rows.getLast (List.cons_ne_nil _ _)))

/-! ### Strategy A — score-based entry/exit points
(entry_exit_point_generator.py, `generate_entry_exit_points`) -/

/-- A row of a strategy CSV as consumed by `generate_entry_exit_points`:
close, composite signal and confidence columns. -/
structure StratRow where
  close : ℚ
  composite_signal : ℚ
  confidence : ℚ
deriving DecidableEq

/-- The latest-row values of the four columns `generate_entry_exit_points`
appends (entry_exit_point_generator.py lines 177-186); `none` models the `NaN`
the source writes on HOLD.  All other rows of those columns are `NaN` in the
source and are not consumed downstream. -/
structure PointsResult where
  entry_point : Option ℚ
  exit_point : Option ℚ
  stop_loss : Option ℚ
  risk_reward : Option ℚ
deriving DecidableEq

/-- Default `risk_reward_ratio` argument of `generate_entry_exit_points`. -/
def default_risk_reward : ℚ := 5.0

/-- The branch on the latest row inside `generate_entry_exit_points`
(entry_exit_point_generator.py lines 153-186): entry/stop/exit arithmetic
(buy below price, sell above), `NaN` (here `none`) on HOLD. -/
def points_for_latest (latest : StratRow) (risk_reward : ℚ) : PointsResult :=
  let price := latest.close
  let s := latest.composite_signal
  if s > 0 then
    let entry := price * 0.99
    let sl := entry * 0.98
    let risk := entry - sl
    let reward := risk * risk_reward
    { entry_point := some entry, exit_point := some (entry + reward),
      stop_loss := some sl, risk_reward := some risk_reward }
  else if s < 0 then
    let entry := price * 1.01
    let sl := entry * 1.02
    let risk := sl - entry
    let reward := risk * risk_reward
    { entry_point := some entry, exit_point := some (entry - reward),
      stop_loss := some sl, risk_reward := some risk_reward }
  else
    { entry_point := none, exit_point := none,
      stop_loss := none, risk_reward := none }

/-- entry_exit_point_generator.py lines 139-188, `generate_entry_exit_points`:
`None` on an empty frame; otherwise the latest-row arithmetic above. -/
def generate_entry_exit_points (df : List StratRow) (risk_reward : ℚ) :
    Option PointsResult :=
  (df.getLast?).map fun latest => points_for_latest latest risk_reward

/-! ### Strategy B — Donchian breakout with ADX gate and ATR sizing
(entry_exit_point_generator.py, `generate_signal`, `generate_trade_parameters`,
`get_phase`; constants from config.py) -/

/-- config.py line 26. -/
def ADX_THRESHOLD : ℚ := 25
/-- config.py line 28. -/
def ATR_MULTIPLIER_SL : ℚ := 1.5
/-- config.py line 29. -/
def ATR_MULTIPLIER_TP : ℚ := 3.0
/-- config.py line 30. -/
def POSITION_SIZE_PERCENT : ℚ := 0.04
/-- config.py line 20. -/
def LEVERAGE : ℚ := 10
/-- config.py line 33. -/
def PHASE_THRESHOLDS : List ℚ := [25000, 40000, 50000]

/-- config.py line 34: the dict `{1: 1.0, 2: 1.0, 3: 1.0}`; other keys are
never looked up by `get_phase`. -/
def PHASE_LOT_FACTOR (i : ℕ) : ℚ :=
  if i = 1 then 1.0 else if i = 2 then 1.0 else if i = 3 then 1.0 else 0

/-- A row of the breakout frame: the columns consumed by `generate_signal`
after `calculate_indicators` (Donchian channel, ADX, ATR computed by
rolling/talib, external to the rule logic). -/
structure BreakoutRow where
  openTime : ℚ
  close : ℚ
  donchianHigh : ℚ
  donchianLow : ℚ
  adx : ℚ
  atr : ℚ
deriving DecidableEq

/-- The dict returned by `generate_signal` on a breakout
(entry_exit_point_generator.py lines 80-85). -/
structure TradeSignal where
  timestamp : ℚ
  price : ℚ
  side : String
  atr : ℚ
deriving DecidableEq

/-- entry_exit_point_generator.py lines 51-87, `generate_signal`.  The source
returns `None` for empty input, then unconditionally evaluates
`prev = df.iloc[-2]`, which raises `IndexError` on a one-row frame; the
`Except.error` branch models that raise.  Only afterwards is the ADX gate and
the Donchian breakout test applied. -/
def generate_signal (df : List BreakoutRow) : Except String (Option TradeSignal) :=
  match df.getLast? with
  | none => .ok none
  | some latest =>
    match df.dropLast.getLast? with
    | none => .error "IndexError: single positional indexer is out-of-bounds"
    | some prev =>
      if latest.adx < ADX_THRESHOLD then .ok none
      else if latest.close > latest.donchianHigh ∧ prev.close ≤ prev.donchianHigh then
        .ok (some { timestamp := latest.openTime, price := latest.close,
                    side := "BUY", atr := latest.atr })
      else if latest.close < latest.donchianLow ∧ prev.close ≥ prev.donchianLow then
        .ok (some { timestamp := latest.openTime, price := latest.close,
                    side := "SELL", atr := latest.atr })
      else .ok none

/-- The dict returned by `generate_trade_parameters`
(entry_exit_point_generator.py lines 115-121). -/
structure TradeParams where
  entry_price : ℚ
  stop_loss : ℚ
  take_profit : ℚ
  position_size : ℚ
  balance : ℚ
deriving DecidableEq

/-- entry_exit_point_generator.py lines 89-121, `generate_trade_parameters`:
ATR-multiple stop/target and `position_size = balance * 0.04 * 10 /
|entry - stop|`.  Note the source never invokes `get_phase` here. -/
def generate_trade_parameters (sig : TradeSignal) (balance : ℚ) : TradeParams :=
  let entry_price := sig.price
  let atr := sig.atr
  let stop_loss :=
    if sig.side = "BUY" then entry_price - ATR_MULTIPLIER_SL * atr
    else entry_price + ATR_MULTIPLIER_SL * atr
  let take_profit :=
    if sig.side = "BUY" then entry_price + ATR_MULTIPLIER_TP * atr
    else entry_price - ATR_MULTIPLIER_TP * atr
  let risk_amount := balance * POSITION_SIZE_PERCENT
  { entry_price := entry_price
    stop_loss := stop_loss
    take_profit := take_profit
    position_size := risk_amount * LEVERAGE / |entry_price - stop_loss|
    balance := balance }

/-- Loop body of `get_phase` (entry_exit_point_generator.py lines 133-135):
`enumerate(PHASE_THRESHOLDS, 1)` with early return on `balance < threshold`. -/
def get_phase_aux (balance : ℚ) : ℕ → List ℚ → ℕ × ℚ
  | _, [] => (PHASE_THRESHOLDS.length, PHASE_LOT_FACTOR PHASE_THRESHOLDS.length)
  | i, t :: ts => if balance < t then (i, PHASE_LOT_FACTOR i) else get_phase_aux balance (i + 1) ts

/-- entry_exit_point_generator.py lines 123-137, `get_phase`: first phase
whose threshold exceeds the balance, else the final phase. -/
def get_phase (balance : ℚ) : ℕ × ℚ := get_phase_aux balance 1 PHASE_THRESHOLDS

/-! ### Indicator Engine boundary (technical_indicator_analyzer.py) -/

/-- A raw data frame: its column names and its rows (row contents are opaque
to the schema check of `calculate_technical_indicators`; the indicator values
themselves come from the external `ta` library). -/
structure RawFrame where
  columns : List String
  nrows : ℕ
deriving DecidableEq

/-- technical_indicator_analyzer.py line 31. -/
def required_columns : List String := ["close", "high", "low", "open", "volume"]

/-- The frame with the indicator columns appended; the numeric contents are
produced by the external `ta` library and are irrelevant to the claims about
this boundary. -/
structure IndicatorFrame where
  base : RawFrame
deriving DecidableEq

/-- technical_indicator_analyzer.py lines 17-73, `calculate_technical_indicators`:
`None` for a `None`/empty frame, `None` when any required OHLCV column is
missing (lines 30-35), else the frame extended with indicator columns. -/
def calculate_technical_indicators (df : Option RawFrame) : Option IndicatorFrame :=
  match df with
  | none => none
  | some f =>
    if f.nrows = 0 then none
    else if ∀ c ∈ required_columns, c ∈ f.columns then some ⟨f⟩
    else none

/-- technical_indicator_analyzer.py lines 75-106, `analyze_all_coins`: per
coin, skip when the data file is absent (`data coin = none`), skip when the
engine returns `None`, else record the result; the loop always continues to
the remaining coins. -/
def analyze_all_coins (coins : List String) (data : String → Option RawFrame) :
    List (String × IndicatorFrame) :=
  match coins with
  | [] => []
  | c :: rest =>
    match calculate_technical_indicators (data c) with
    | none => analyze_all_coins rest data
    | some out => (c, out) :: analyze_all_coins rest data

/-! ### Ranked summaries (the `sort_values(by=["signal", "confidence"],
ascending=[True, False])` calls of trading_strategy_creator.py line 134,
entry_exit_point_generator.py line 245 and batch_processor.py line 257) -/

/-- The sort key order used by every summary table: signal ascending
(lexicographic on strings, as pandas compares `object` columns), then
confidence descending. -/
def bySigConf {α : Type} (sig : α → String) (conf : α → ℚ) (a b : α) : Prop :=
  sig a < sig b ∨ (sig a = sig b ∧ conf b ≤ conf a)

instance {α : Type} (sig : α → String) (conf : α → ℚ) :
    DecidableRel (bySigConf sig conf) := fun a b => by
  unfold bySigConf; infer_instance

instance {α : Type} (sig : α → String) (conf : α → ℚ) :
    IsTotal α (bySigConf sig conf) := by
  constructor
  intro a b
  rcases lt_trichotomy (sig a) (sig b) with h | h | h
  · exact Or.inl (Or.inl h)
  · rcases le_total (conf b) (conf a) with hc | hc
    · exact Or.inl (Or.inr ⟨h, hc⟩)
    · exact Or.inr (Or.inr ⟨h.symm, hc⟩)
  · exact Or.inr (Or.inl h)

instance {α : Type} (sig : α → String) (conf : α → ℚ) :
    IsTrans α (bySigConf sig conf) := by
  constructor
  intro a b c hab hbc
  rcases hab with h1 | ⟨h1, hc1⟩
  · rcases hbc with h2 | ⟨h2, _⟩
    · exact Or.inl (h1.trans h2)
    · exact Or.inl (h2 ▸ h1)
  · rcases hbc with h2 | ⟨h2, hc2⟩
    · exact Or.inl (h1 ▸ h2)
    · exact Or.inr ⟨h1.trans h2, hc2.trans hc1⟩

/-- `DataFrame.sort_values(by=["signal", "confidence"], ascending=[True,
False])`, modelled as a comparison sort by the same key order. -/
def sort_values {α : Type} (sig : α → String) (conf : α → ℚ) (l : List α) : List α :=
  List.insertionSort (bySigConf sig conf) l

/-- One iteration of the per-coin loop of `create_trading_strategies`
(trading_strategy_creator.py lines 89-128): skip a coin whose analysis file is
absent, run `generate_trading_signals`, and summarise the latest row
(unconditionally — HOLD coins are summarised too). -/
def signalSummaryFor (data : String → Option (List AnalysisRow)) (c : String) :
    Option SignalSummary :=
  (data c).bind fun df =>
    (generate_trading_signals df).bind fun out =>
      out.getLast?.map fun latest => mkSignalSummary c latest

/-- The per-coin loop of `create_trading_strategies`, which appends at most
one summary per coin. -/
def collectSignalSummaries (coins : List String)
    (data : String → Option (List AnalysisRow)) : List SignalSummary :=
  coins.filterMap (signalSummaryFor data)

/-- trading_strategy_creator.py lines 82-141, `create_trading_strategies`:
the ranked trading-signals summary table. -/
def create_trading_strategies (coins : List String)
    (data : String → Option (List AnalysisRow)) : List SignalSummary :=
  sort_values (fun s => s.signal) (fun s => s.confidence)
    (collectSignalSummaries coins data)

/-- Entry/exit summary record of entry_exit_point_generator.py lines 227-236. -/
structure PointsSummary where
  coin : String
  price : ℚ
  signal : String
  confidence : ℚ
  entry_point : Option ℚ
  exit_point : Option ℚ
  stop_loss : Option ℚ
  risk_reward : Option ℚ
deriving DecidableEq

/-- entry_exit_point_generator.py lines 227-236. -/
def mkPointsSummary (coin : String) (latest : StratRow) (res : PointsResult) :
    PointsSummary :=
  { coin := coin
    price := latest.close
    signal := signal_label latest.composite_signal
    confidence := latest.confidence
    entry_point := res.entry_point
    exit_point := res.exit_point
    stop_loss := res.stop_loss
    risk_reward := res.risk_reward }

/-- One iteration of the per-coin loop of `generate_all_entry_exit_points`
(entry_exit_point_generator.py lines 197-238): skip absent strategy files,
run `generate_entry_exit_points` with the default risk-reward ratio, and
append a summary only when the latest `entry_point` is not `NaN`
(line 226) — i.e. only for non-HOLD coins. -/
def pointsSummaryFor (data : String → Option (List StratRow)) (c : String) :
    Option PointsSummary :=
  (data c).bind fun df =>
    (generate_entry_exit_points df default_risk_reward).bind fun res =>
      df.getLast?.bind fun latest =>
        if res.entry_point.isSome then some (mkPointsSummary c latest res) else none

/-- The per-coin loop of `generate_all_entry_exit_points`, which appends at
most one summary per coin. -/
def collectPointsSummaries (coins : List String)
    (data : String → Option (List StratRow)) : List PointsSummary :=
  coins.filterMap (pointsSummaryFor data)

/-- entry_exit_point_generator.py lines 190-255, `generate_all_entry_exit_points`:
the ranked entry/exit summary table (the notification payload is built from
this table). -/
def generate_all_entry_exit_points (coins : List String)
    (data : String → Option (List StratRow)) : List PointsSummary :=
  sort_values (fun s => s.signal) (fun s => s.confidence)
    (collectPointsSummaries coins data)

/-- Signal-generation stage plus summary collection of
`batch_process_cryptocurrencies` (batch_processor.py lines 229-247); `data`
maps a coin to its analysed frame (`none` = dropped at an earlier stage).
Collection order across workers is unspecified in the source; the sortedness
and membership properties proved below are order-independent. -/
def batchSummaryFor (data : String → Option (List BatchRow)) (c : String) :
    Option BatchSummary :=
  (data c).bind fun df => (generate_trading_signals_batch c df).map fun x => x.2

/-- The summaries collected over the batch (one per surviving coin). -/
def collectBatchSummaries (coins : List String)
    (data : String → Option (List BatchRow)) : List BatchSummary :=
  coins.filterMap (batchSummaryFor data)

/-- batch_processor.py lines 172-267, final ranked summary of
`batch_process_cryptocurrencies` (network fetch and the `ta`-library indicator
stage are external; `data` is the post-analysis frame per coin). -/
def batch_process_cryptocurrencies (coins : List String)
    (data : String → Option (List BatchRow)) : List BatchSummary :=
  sort_values (fun s => s.signal) (fun s => s.confidence)
    (collectBatchSummaries coins data)

/-! ### Helper lemmas -/

/-- A per-rule vote is one of -1, 0, +1. -/
def IsVote (v : ℤ) : Prop := v = -1 ∨ v = 0 ∨ v = 1

lemma isVote_rsi (r : AnalysisRow) : IsVote (rsi_vote r) := by
  unfold rsi_vote IsVote; split_ifs <;> simp

lemma isVote_macd_cross (p : Option AnalysisRow) (r : AnalysisRow) :
    IsVote (macd_cross_vote p r) := by
  unfold macd_cross_vote IsVote
  split
  · simp
  · split_ifs <;> simp

lemma isVote_bb (r : AnalysisRow) : IsVote (bb_vote r) := by
  unfold bb_vote IsVote; split_ifs <;> simp

lemma isVote_ma_cross (p : Option AnalysisRow) (r : AnalysisRow) :
    IsVote (ma_cross_vote p r) := by
  unfold ma_cross_vote IsVote
  split
  · simp
  · split_ifs <;> simp

lemma isVote_stoch (r : AnalysisRow) : IsVote (stoch_vote r) := by
  unfold stoch_vote IsVote; split_ifs <;> simp

lemma isVote_batch_rsi (r : BatchRow) : IsVote (batch_rsi_vote r) := by
  unfold batch_rsi_vote IsVote; split_ifs <;> simp

lemma isVote_batch_macd_cross (p : Option BatchRow) (r : BatchRow) :
    IsVote (batch_macd_cross_vote p r) := by
  unfold batch_macd_cross_vote IsVote
  split
  · simp
  · split_ifs <;> simp

lemma isVote_batch_bb (r : BatchRow) : IsVote (batch_bb_vote r) := by
  unfold batch_bb_vote IsVote; split_ifs <;> simp

lemma cast_bounds_of_isVote {v : ℤ} (h : IsVote v) : (-1 : ℚ) ≤ (v : ℚ) ∧ (v : ℚ) ≤ 1 := by
  rcases h with h | h | h <;> subst h <;> norm_num

/-- The composite signal of a full-variant row, written out. -/
lemma mkSignalRow_composite (prev : Option AnalysisRow) (cur : AnalysisRow) :
    (mkSignalRow prev cur).composite_signal =
      (rsi_vote cur : ℚ) * w_rsi + (macd_cross_vote prev cur : ℚ) * w_macd +
      (bb_vote cur : ℚ) * w_bb + (ma_cross_vote prev cur : ℚ) * w_ma +
      (stoch_vote cur : ℚ) * w_stoch := rfl

/-- The confidence of a full-variant row is the clipped scaled composite. -/
lemma mkSignalRow_confidence (prev : Option AnalysisRow) (cur : AnalysisRow) :
    (mkSignalRow prev cur).confidence =
      min 100 (max 0 (|(mkSignalRow prev cur).composite_signal| * 100)) := rfl

lemma mkSignalRow_composite_bounds (prev : Option AnalysisRow) (cur : AnalysisRow) :
    -1 ≤ (mkSignalRow prev cur).composite_signal ∧
      (mkSignalRow prev cur).composite_signal ≤ 1 := by
  obtain ⟨a1, b1⟩ := cast_bounds_of_isVote (isVote_rsi cur)
  obtain ⟨a2, b2⟩ := cast_bounds_of_isVote (isVote_macd_cross prev cur)
  obtain ⟨a3, b3⟩ := cast_bounds_of_isVote (isVote_bb cur)
  obtain ⟨a4, b4⟩ := cast_bounds_of_isVote (isVote_ma_cross prev cur)
  obtain ⟨a5, b5⟩ := cast_bounds_of_isVote (isVote_stoch cur)
  rw [mkSignalRow_composite]
  unfold w_rsi w_macd w_bb w_ma w_stoch
  constructor <;> linarith

lemma mkBatchSignalRow_composite (prev : Option BatchRow) (cur : BatchRow) :
    (mkBatchSignalRow prev cur).composite_signal =
      (batch_rsi_vote cur : ℚ) * bw_rsi + (batch_macd_cross_vote prev cur : ℚ) * bw_macd +
      (batch_bb_vote cur : ℚ) * bw_bb := rfl

lemma mkBatchSignalRow_composite_bounds (prev : Option BatchRow) (cur : BatchRow) :
    -1 ≤ (mkBatchSignalRow prev cur).composite_signal ∧
      (mkBatchSignalRow prev cur).composite_signal ≤ 1 := by
  obtain ⟨a1, b1⟩ := cast_bounds_of_isVote (isVote_batch_rsi cur)
  obtain ⟨a2, b2⟩ := cast_bounds_of_isVote (isVote_batch_macd_cross prev cur)
  obtain ⟨a3, b3⟩ := cast_bounds_of_isVote (isVote_batch_bb cur)
  rw [mkBatchSignalRow_composite]
  unfold bw_rsi bw_macd bw_bb
  constructor <;> linarith

/-- Every row of the full-variant signal pass is `mkSignalRow` of some pair. -/
lemma mem_signalRows {p : Option AnalysisRow} {rows : List AnalysisRow} {r : SignalRow}
    (h : r ∈ signalRows p rows) : ∃ prev cur, r = mkSignalRow prev cur := by
  induction rows generalizing p with
  | nil => simp [signalRows] at h
  | cons a as ih =>
    rw [signalRows, List.mem_cons] at h
    rcases h with h | h
    · exact ⟨p, a, h⟩
    · exact ih h

/-- Every row of the batch signal pass is `mkBatchSignalRow` of some pair. -/
lemma mem_batchSignalRows {p : Option BatchRow} {rows : List BatchRow} {r : BatchSignalRow}
    (h : r ∈ batchSignalRows p rows) : ∃ prev cur, r = mkBatchSignalRow prev cur := by
  induction rows generalizing p with
  | nil => simp [batchSignalRows] at h
  | cons a as ih =>
    rw [batchSignalRows, List.mem_cons] at h
    rcases h with h | h
    · exact ⟨p, a, h⟩
    · exact ih h

lemma generate_trading_signals_eq {df : List AnalysisRow} {out : List SignalRow}
    (h : generate_trading_signals df = some out) : out = signalRows none df := by
  cases df with
  | nil => simp [generate_trading_signals] at h
  | cons a as =>
    have heq : generate_trading_signals (a :: as) = some (signalRows none (a :: as)) := rfl
    rw [heq] at h
    exact (Option.some_injective _ h).symm

/-! ### C1 -/

/-- C1: every per-rule vote lies in {-1, 0, +1}; the full 5-rule weight
profile (0.20/0.30/0.15/0.25/0.10) and the reduced 3-rule profile
(0.30/0.40/0.30) each sum exactly to 1; every row produced by either signal
pipeline has `composite_signal ∈ [-1, 1]`; and in both variants the derived
confidence equals `clamp(|composite_signal| * 100, 0, 100)` and lies in
[0, 100]. -/
theorem c1_votes_weights_composite_confidence :
    (w_rsi + w_macd + w_bb + w_ma + w_stoch = 1 ∧ bw_rsi + bw_macd + bw_bb = 1)
    ∧ (∀ (prev : Option AnalysisRow) (cur : AnalysisRow),
        IsVote (rsi_vote cur) ∧ IsVote (macd_cross_vote prev cur) ∧ IsVote (bb_vote cur)
        ∧ IsVote (ma_cross_vote prev cur) ∧ IsVote (stoch_vote cur))
    ∧ (∀ (prev : Option BatchRow) (cur : BatchRow),
        IsVote (batch_rsi_vote cur) ∧ IsVote (batch_macd_cross_vote prev cur)
        ∧ IsVote (batch_bb_vote cur))
    ∧ (∀ (df : List AnalysisRow) (out : List SignalRow),
        generate_trading_signals df = some out → ∀ r ∈ out,
          (-1 ≤ r.composite_signal ∧ r.composite_signal ≤ 1)
          ∧ r.confidence = min 100 (max 0 (|r.composite_signal| * 100))
          ∧ 0 ≤ r.confidence ∧ r.confidence ≤ 100)
    ∧ (∀ (coin : String) (df : List BatchRow) (out : List BatchSignalRow)
        (summ : BatchSummary),
        generate_trading_signals_batch coin df = some (out, summ) →
          (∀ r ∈ out, -1 ≤ r.composite_signal ∧ r.composite_signal ≤ 1)
          ∧ (∃ latest ∈ out,
              summ.confidence = |latest.composite_signal| * 100
              ∧ summ.confidence = min 100 (max 0 (|latest.composite_signal| * 100)))
          ∧ 0 ≤ summ.confidence ∧ summ.confidence ≤ 100) := by
  refine ⟨⟨by unfold w_rsi w_macd w_bb w_ma w_stoch; norm_num,
           by unfold bw_rsi bw_macd bw_bb; norm_num⟩, ?_, ?_, ?_, ?_⟩
  · exact fun prev cur => ⟨isVote_rsi cur, isVote_macd_cross prev cur, isVote_bb cur,
      isVote_ma_cross prev cur, isVote_stoch cur⟩
  · exact fun prev cur => ⟨isVote_batch_rsi cur, isVote_batch_macd_cross prev cur,
      isVote_batch_bb cur⟩
  · intro df out h r hr
    obtain ⟨prev, cur, rfl⟩ := mem_signalRows (generate_trading_signals_eq h ▸ hr)
    refine ⟨mkSignalRow_composite_bounds prev cur, mkSignalRow_confidence prev cur, ?_, ?_⟩
    · rw [mkSignalRow_confidence]
      exact le_min (by norm_num) (le_max_left _ _)
    · rw [mkSignalRow_confidence]
      exact min_le_left _ _
  · intro coin df out summ h
    cases df with
    | nil => simp [generate_trading_signals_batch] at h
    | cons d ds =>
      rw [generate_trading_signals_batch] at h
      obtain ⟨hout, hsumm⟩ := Prod.mk.injEq .. ▸ Option.some_injective _ h
      have hrows : ∀ r ∈ out, -1 ≤ r.composite_signal ∧ r.composite_signal ≤ 1 := by
        intro r hr
        rw [← hout] at hr
        rw [List.mem_cons] at hr
        rcases hr with hr | hr
        · exact hr ▸ mkBatchSignalRow_composite_bounds none d
        · obtain ⟨p, c, rfl⟩ := mem_batchSignalRows hr
          exact mkBatchSignalRow_composite_bounds p c
      refine ⟨hrows, ?_⟩
      set latest := (mkBatchSignalRow none d :: batchSignalRows (some d) ds).getLast
        (List.cons_ne_nil _ _) with hlatest
      have hmem : latest ∈ out := by
        rw [← hout]; exact List.getLast_mem _
      have hconf : summ.confidence = |latest.composite_signal| * 100 := by
        rw [← hsumm]; rfl
      obtain ⟨hlo, hhi⟩ := hrows latest hmem
      have habs : |latest.composite_signal| ≤ 1 := abs_le.mpr ⟨hlo, hhi⟩
      have habs0 : 0 ≤ |latest.composite_signal| := abs_nonneg _
      refine ⟨⟨latest, hmem, hconf, ?_⟩, ?_, ?_⟩
      · rw [hconf, max_eq_right (by linarith), min_eq_right (by linarith)]
      · rw [hconf]; linarith
      · rw [hconf]; linarith

/-! ### C2, C7 — Strategy A -/

/-- C2: for a non-empty series with latest close `price`, a positive latest
composite signal yields `entry = price * 0.99`, `stop_loss = entry * 0.98`,
`exit = entry + R * (entry - stop_loss)`; a negative one yields
`entry = price * 1.01`, `stop_loss = entry * 1.02`,
`exit = entry - R * (stop_loss - entry)`; `risk_reward_ratio = R`. -/
theorem c2_strategyA_formulas (df : List StratRow) (latest : StratRow) (rr : ℚ)
    (h : df.getLast? = some latest) :
    (0 < latest.composite_signal →
      generate_entry_exit_points df rr = some
        { entry_point := some (latest.close * 0.99)
          exit_point := some (latest.close * 0.99 +
            rr * (latest.close * 0.99 - latest.close * 0.99 * 0.98))
          stop_loss := some (latest.close * 0.99 * 0.98)
          risk_reward := some rr })
    ∧ (latest.composite_signal < 0 →
      generate_entry_exit_points df rr = some
        { entry_point := some (latest.close * 1.01)
          exit_point := some (latest.close * 1.01 -
            rr * (latest.close * 1.01 * 1.02 - latest.close * 1.01))
          stop_loss := some (latest.close * 1.01 * 1.02)
          risk_reward := some rr }) := by
  rw [generate_entry_exit_points, h, Option.map_some']
  constructor
  · intro hpos
    rw [points_for_latest, if_pos hpos]
    simp only [Option.some.injEq, PointsResult.mk.injEq, true_and, and_true]
    ring
  · intro hneg
    rw [points_for_latest, if_neg (not_lt.mpr hneg.le), if_pos hneg]
    simp only [Option.some.injEq, PointsResult.mk.injEq, true_and, and_true]
    ring

/-- C2 witness: price 100, BUY, R = 5 gives entry 99, stop 97.02, risk 1.98,
reward 9.90, exit 108.90. -/
theorem c2_witness :
    generate_entry_exit_points [⟨100, 0.5, 50⟩] 5 = some
      { entry_point := some (100 * 0.99)
        exit_point := some (100 * 0.99 + 5 * (100 * 0.99 - 100 * 0.99 * 0.98))
        stop_loss := some (100 * 0.99 * 0.98)
        risk_reward := some 5 }
    ∧ (100 : ℚ) * 0.99 = 99 ∧ (100 : ℚ) * 0.99 * 0.98 = 97.02
    ∧ (99 : ℚ) - 97.02 = 1.98 ∧ (1.98 : ℚ) * 5 = 9.9 ∧ (99 : ℚ) + 9.9 = 108.9 := by
  refine ⟨(c2_strategyA_formulas [⟨100, 0.5, 50⟩] ⟨100, 0.5, 50⟩ 5 rfl).1 (by norm_num),
    by norm_num, by norm_num, by norm_num, by norm_num, by norm_num⟩

/-- C7: on a non-empty series whose latest composite signal is 0 (HOLD),
Strategy A produces no entry, exit, stop or risk-reward value: all four are
explicitly absent (`NaN` in the source, `none` here), not zero. -/
theorem c7_hold_absent (df : List StratRow) (latest : StratRow) (rr : ℚ)
    (h : df.getLast? = some latest) (h0 : latest.composite_signal = 0) :
    generate_entry_exit_points df rr = some
      { entry_point := none, exit_point := none, stop_loss := none, risk_reward := none } := by
  rw [generate_entry_exit_points, h, Option.map_some', points_for_latest, h0]
  norm_num

/-- C7 witness: a one-row series with composite signal 0. -/
theorem c7_witness :
    generate_entry_exit_points [⟨100, 0, 0⟩] 5 = some
      { entry_point := none, exit_point := none, stop_loss := none, risk_reward := none } :=
  c7_hold_absent [⟨100, 0, 0⟩] ⟨100, 0, 0⟩ 5 rfl rfl

/-! ### C3 — Strategy B position sizing -/

/-- Every phase's configured lot factor is 1.0 (config.py line 34), so the
lot factor `get_phase` selects for any balance is 1. -/
lemma get_phase_factor (b : ℚ) : (get_phase b).2 = 1 := by
  simp only [get_phase, PHASE_THRESHOLDS, get_phase_aux]
  split_ifs <;> simp_all [PHASE_LOT_FACTOR] <;> norm_num

/-- C3 counterexample: the claim quantifies over every balance, but at
balance 0 (signal BUY, price 100, ATR 2, so entry 100 ≠ stop 97) the returned
`position_size` is 0, not positive. -/
theorem c3_counterexample :
    (generate_trade_parameters ⟨0, 100, "BUY", 2⟩ 0).entry_price ≠
        (generate_trade_parameters ⟨0, 100, "BUY", 2⟩ 0).stop_loss
    ∧ ¬ 0 < (generate_trade_parameters ⟨0, 100, "BUY", 2⟩ 0).position_size := by
  constructor
  · show (100 : ℚ) ≠ 100 - ATR_MULTIPLIER_SL * 2
    rw [ATR_MULTIPLIER_SL]; norm_num
  · show ¬ 0 < 0 * POSITION_SIZE_PERCENT * LEVERAGE / |(100 : ℚ) - (100 - ATR_MULTIPLIER_SL * 2)|
    rw [ATR_MULTIPLIER_SL, POSITION_SIZE_PERCENT, LEVERAGE]; norm_num

/-- C3 (amended): the returned `position_size` equals
`balance * risk_fraction * leverage / |entry - stop_loss|` (risk fraction
0.04, leverage 10) times the lot factor of the phase `get_phase` selects for
the balance — an equality that holds numerically because every configured lot
factor is 1.0 (the code itself never calls `get_phase` when sizing) — and
`position_size > 0` whenever `entry ≠ stop_loss` and the balance is
positive. -/
theorem c3_position_size_amended (sig : TradeSignal) (balance : ℚ) :
    (generate_trade_parameters sig balance).position_size =
      balance * POSITION_SIZE_PERCENT * LEVERAGE /
        |(generate_trade_parameters sig balance).entry_price -
          (generate_trade_parameters sig balance).stop_loss| * (get_phase balance).2
    ∧ (0 < balance →
      (generate_trade_parameters sig balance).entry_price ≠
        (generate_trade_parameters sig balance).stop_loss →
      0 < (generate_trade_parameters sig balance).position_size) := by
  constructor
  · rw [get_phase_factor, mul_one]
    rfl
  · intro hb hne
    have hne' : (generate_trade_parameters sig balance).entry_price -
        (generate_trade_parameters sig balance).stop_loss ≠ 0 := sub_ne_zero.mpr hne
    show 0 < balance * POSITION_SIZE_PERCENT * LEVERAGE /
      |(generate_trade_parameters sig balance).entry_price -
        (generate_trade_parameters sig balance).stop_loss|
    apply div_pos
    · rw [POSITION_SIZE_PERCENT, LEVERAGE]
      nlinarith
    · exact abs_pos.mpr hne'

/-- C3 witness: BUY at price 100, ATR 2, balance 15000: the equation holds and
the position size is positive. -/
theorem c3_witness :
    (generate_trade_parameters ⟨0, 100, "BUY", 2⟩ 15000).position_size =
      15000 * POSITION_SIZE_PERCENT * LEVERAGE /
        |(generate_trade_parameters ⟨0, 100, "BUY", 2⟩ 15000).entry_price -
          (generate_trade_parameters ⟨0, 100, "BUY", 2⟩ 15000).stop_loss| *
        (get_phase 15000).2
    ∧ 0 < (generate_trade_parameters ⟨0, 100, "BUY", 2⟩ 15000).position_size := by
  have h := c3_position_size_amended ⟨0, 100, "BUY", 2⟩ 15000
  refine ⟨h.1, h.2 (by norm_num) ?_⟩
  show (100 : ℚ) ≠ 100 - ATR_MULTIPLIER_SL * 2
  rw [ATR_MULTIPLIER_SL]; norm_num

/-! ### C4 — short-series tolerance -/

/-- C4: the code violates the claim.  An empty frame yields no signal as
claimed, but on a one-bar frame `generate_signal` evaluates `df.iloc[-2]`
immediately after its emptiness guard and raises `IndexError` instead of
returning no signal (the spec's failure policy and the function's own
docstring promise "None if no signal").  Strategy A's generator does tolerate
one-bar and empty frames. -/
theorem c4_one_bar_raises :
    generate_signal [] = .ok none
    ∧ generate_signal [⟨0, 100, 110, 90, 30, 2⟩] =
        .error "IndexError: single positional indexer is out-of-bounds"
    ∧ generate_entry_exit_points [⟨100, 0, 17⟩] default_risk_reward =
        some { entry_point := none, exit_point := none, stop_loss := none,
               risk_reward := none }
    ∧ generate_entry_exit_points [] default_risk_reward = none := by
  refine ⟨rfl, rfl, ?_, rfl⟩
  rw [generate_entry_exit_points]
  show some (points_for_latest ⟨100, 0, 17⟩ default_risk_reward) = _
  rw [points_for_latest]
  norm_num

/-- C1 witness: a concrete one-bar series in each pipeline variant. -/
theorem c1_witness :
    (-1 ≤ (mkSignalRow none ⟨100, 20, 1, 0, 200, 1, 1, 1, 50, 50⟩).composite_signal
      ∧ (mkSignalRow none ⟨100, 20, 1, 0, 200, 1, 1, 1, 50, 50⟩).composite_signal ≤ 1)
    ∧ (mkSignalRow none ⟨100, 20, 1, 0, 200, 1, 1, 1, 50, 50⟩).confidence =
        min 100 (max 0
          (|(mkSignalRow none ⟨100, 20, 1, 0, 200, 1, 1, 1, 50, 50⟩).composite_signal| * 100))
    ∧ (0 ≤ (mkSignalRow none ⟨100, 20, 1, 0, 200, 1, 1, 1, 50, 50⟩).confidence
      ∧ (mkSignalRow none ⟨100, 20, 1, 0, 200, 1, 1, 1, 50, 50⟩).confidence ≤ 100)
    ∧ (0 ≤ (mkBatchSummary "BTC" (mkBatchSignalRow none ⟨100, 20, 1, 0, 200, 1, 2, 1⟩)).confidence
      ∧ (mkBatchSummary "BTC" (mkBatchSignalRow none ⟨100, 20, 1, 0, 200, 1, 2, 1⟩)).confidence
          ≤ 100) := by
  have h4 := c1_votes_weights_composite_confidence.2.2.2.1
    [⟨100, 20, 1, 0, 200, 1, 1, 1, 50, 50⟩]
    [mkSignalRow none ⟨100, 20, 1, 0, 200, 1, 1, 1, 50, 50⟩] rfl
    (mkSignalRow none ⟨100, 20, 1, 0, 200, 1, 1, 1, 50, 50⟩) (List.mem_singleton.mpr rfl)
  have h5 := c1_votes_weights_composite_confidence.2.2.2.2 "BTC"
    [⟨100, 20, 1, 0, 200, 1, 2, 1⟩]
    [mkBatchSignalRow none ⟨100, 20, 1, 0, 200, 1, 2, 1⟩]
    (mkBatchSummary "BTC" (mkBatchSignalRow none ⟨100, 20, 1, 0, 200, 1, 2, 1⟩)) rfl
  exact ⟨h4.1, h4.2.1, ⟨h4.2.2.1, h4.2.2.2⟩, h5.2.2⟩

/-! ### C5 — first-bar behaviour of the voting rules -/

/-- C5 counterexample: the stochastic rule is not a crossover rule — it reads
only the current bar.  On the very first bar of a series with
`stoch_k = 15, stoch_d = 10` (both < 20 and k > d) it votes +1, not 0. -/
theorem c5_counterexample :
    generate_trading_signals [⟨100, 50, 0, 0, 200, 1, 1, 1, 15, 10⟩] =
      some [mkSignalRow none ⟨100, 50, 0, 0, 200, 1, 1, 1, 15, 10⟩]
    ∧ (mkSignalRow none ⟨100, 50, 0, 0, 200, 1, 1, 1, 15, 10⟩).stoch_signal = 1 := by
  exact ⟨rfl, by decide⟩

/-- C5 (amended): the genuinely crossover-based rules — MACD cross and MA
cross in the full variant, MACD cross in the batch variant (which has no
stochastic rule at all) — vote 0 on the first bar of every series, because
the shifted previous bar is `NaN` there; the stochastic rule is a pure level
rule on the current bar and can vote on the first bar. -/
theorem c5_cross_votes_first_bar (r : AnalysisRow) (rows : List AnalysisRow)
    (coin : String) (b : BatchRow) (bs : List BatchRow) :
    generate_trading_signals (r :: rows) =
      some (mkSignalRow none r :: signalRows (some r) rows)
    ∧ (mkSignalRow none r).macd_cross_signal = 0
    ∧ (mkSignalRow none r).ma_cross_signal = 0
    ∧ (generate_trading_signals_batch coin (b :: bs)).map Prod.fst =
        some (mkBatchSignalRow none b :: batchSignalRows (some b) bs)
    ∧ (mkBatchSignalRow none b).macd_cross_signal = 0 :=
  ⟨rfl, rfl, rfl, rfl, rfl⟩

/-! ### C6 — signal and trend labels -/

lemma signal_label_cases (cs : ℚ) :
    (signal_label cs = "BUY" ↔ 0 < cs) ∧ (signal_label cs = "SELL" ↔ cs < 0)
    ∧ (signal_label cs = "HOLD" ↔ cs = 0) := by
  unfold signal_label
  rcases lt_trichotomy cs 0 with h | h | h
  · rw [if_neg (asymm h), if_pos h]
    exact ⟨iff_of_false (by decide) (asymm h), iff_of_true rfl h,
      iff_of_false (by decide) (ne_of_lt h)⟩
  · subst h
    rw [if_neg (lt_irrefl 0), if_neg (lt_irrefl 0)]
    exact ⟨iff_of_false (by decide) (lt_irrefl 0), iff_of_false (by decide) (lt_irrefl 0),
      iff_of_true rfl rfl⟩
  · rw [if_pos h]
    exact ⟨iff_of_true rfl h, iff_of_false (by decide) (asymm h),
      iff_of_false (by decide) (ne_of_gt h)⟩

lemma trend_label_cases (cs : ℚ) :
    (trend_label (if cs ≥ 0.3 then 1 else if cs ≤ -0.3 then -1 else 0) = "UPTREND"
      ↔ 0.3 ≤ cs)
    ∧ (trend_label (if cs ≥ 0.3 then 1 else if cs ≤ -0.3 then -1 else 0) = "DOWNTREND"
      ↔ cs ≤ -0.3)
    ∧ (trend_label (if cs ≥ 0.3 then 1 else if cs ≤ -0.3 then -1 else 0) = "NEUTRAL"
      ↔ (¬ 0.3 ≤ cs ∧ ¬ cs ≤ -0.3)) := by
  by_cases h1 : (0.3 : ℚ) ≤ cs
  · rw [if_pos h1]
    have hd : ¬ cs ≤ -0.3 := by linarith
    exact ⟨iff_of_true (by decide) h1, iff_of_false (by decide) hd,
      iff_of_false (by decide) (fun hh => hh.1 h1)⟩
  · rw [if_neg h1]
    by_cases h2 : cs ≤ -0.3
    · rw [if_pos h2]
      exact ⟨iff_of_false (by decide) h1, iff_of_true (by decide) h2,
        iff_of_false (by decide) (fun hh => hh.2 h2)⟩
    · rw [if_neg h2]
      exact ⟨iff_of_false (by decide) h1, iff_of_false (by decide) h2,
        iff_of_true (by decide) ⟨h1, h2⟩⟩

lemma mkBatchSummary_trend (coin : String) (r : BatchSignalRow) :
    ((mkBatchSummary coin r).trend = "UPTREND" ↔ r.base.sma_50 < r.base.sma_20)
    ∧ ((mkBatchSummary coin r).trend = "DOWNTREND" ↔ ¬ r.base.sma_50 < r.base.sma_20) := by
  have ht : (mkBatchSummary coin r).trend =
      if r.base.sma_20 > r.base.sma_50 then "UPTREND" else "DOWNTREND" := rfl
  rw [ht]
  by_cases h : r.base.sma_50 < r.base.sma_20
  · rw [if_pos h]
    exact ⟨iff_of_true rfl h, iff_of_false (by decide) (fun hh => hh h)⟩
  · rw [if_neg h]
    exact ⟨iff_of_false (by decide) h, iff_of_true rfl h⟩

/-- C6 counterexample: the claim asserts the ±0.3 trend rule for every
pipeline variant, but the batch variant derives its trend from
`sma_20 > sma_50`: with all votes 0 (composite 0 < 0.3) and `sma_20 = 2 >
1 = sma_50` the batch summary reports UPTREND. -/
theorem c6_counterexample :
    generate_trading_signals_batch "BTC" [⟨100, 50, 0, 0, 200, 1, 2, 1⟩] =
      some ([mkBatchSignalRow none ⟨100, 50, 0, 0, 200, 1, 2, 1⟩],
        mkBatchSummary "BTC" (mkBatchSignalRow none ⟨100, 50, 0, 0, 200, 1, 2, 1⟩))
    ∧ (mkBatchSummary "BTC" (mkBatchSignalRow none ⟨100, 50, 0, 0, 200, 1, 2, 1⟩)).trend
        = "UPTREND"
    ∧ (mkBatchSignalRow none ⟨100, 50, 0, 0, 200, 1, 2, 1⟩).composite_signal = 0
    ∧ ¬ (0.3 : ℚ) ≤ (mkBatchSignalRow none ⟨100, 50, 0, 0, 200, 1, 2, 1⟩).composite_signal := by
  have h0 : (mkBatchSignalRow none ⟨100, 50, 0, 0, 200, 1, 2, 1⟩).composite_signal = 0 := by
    show (batch_rsi_vote ⟨100, 50, 0, 0, 200, 1, 2, 1⟩ : ℚ) * bw_rsi +
      (batch_macd_cross_vote none ⟨100, 50, 0, 0, 200, 1, 2, 1⟩ : ℚ) * bw_macd +
      (batch_bb_vote ⟨100, 50, 0, 0, 200, 1, 2, 1⟩ : ℚ) * bw_bb = 0
    norm_num [batch_rsi_vote, batch_macd_cross_vote, batch_bb_vote, bw_rsi, bw_macd, bw_bb]
  exact ⟨rfl, by decide, h0, by rw [h0]; norm_num⟩

/-- C6 (amended): in both variants the reported signal label is BUY iff the
latest composite signal is positive, SELL iff negative, HOLD iff zero; the
trend label follows the ±0.3 composite rule in the full variant only, while
the batch variant reports UPTREND iff `sma_20 > sma_50` on the latest row and
DOWNTREND otherwise (it never reports NEUTRAL). -/
theorem c6_labels_amended (coin : String) (latest : SignalRow) (r : BatchSignalRow)
    (prev : Option AnalysisRow) (cur : AnalysisRow) :
    ((mkSignalSummary coin latest).signal = "BUY" ↔ 0 < latest.composite_signal)
    ∧ ((mkSignalSummary coin latest).signal = "SELL" ↔ latest.composite_signal < 0)
    ∧ ((mkSignalSummary coin latest).signal = "HOLD" ↔ latest.composite_signal = 0)
    ∧ ((mkBatchSummary coin r).signal = "BUY" ↔ 0 < r.composite_signal)
    ∧ ((mkBatchSummary coin r).signal = "SELL" ↔ r.composite_signal < 0)
    ∧ ((mkBatchSummary coin r).signal = "HOLD" ↔ r.composite_signal = 0)
    ∧ ((mkSignalSummary coin (mkSignalRow prev cur)).trend = "UPTREND" ↔
        0.3 ≤ (mkSignalRow prev cur).composite_signal)
    ∧ ((mkSignalSummary coin (mkSignalRow prev cur)).trend = "DOWNTREND" ↔
        (mkSignalRow prev cur).composite_signal ≤ -0.3)
    ∧ ((mkSignalSummary coin (mkSignalRow prev cur)).trend = "NEUTRAL" ↔
        (¬ 0.3 ≤ (mkSignalRow prev cur).composite_signal
          ∧ ¬ (mkSignalRow prev cur).composite_signal ≤ -0.3))
    ∧ ((mkBatchSummary coin r).trend = "UPTREND" ↔ r.base.sma_50 < r.base.sma_20)
    ∧ ((mkBatchSummary coin r).trend = "DOWNTREND" ↔ ¬ r.base.sma_50 < r.base.sma_20) := by
  obtain ⟨a1, a2, a3⟩ := signal_label_cases latest.composite_signal
  obtain ⟨b1, b2, b3⟩ := signal_label_cases r.composite_signal
  obtain ⟨t1, t2, t3⟩ := trend_label_cases (mkSignalRow prev cur).composite_signal
  obtain ⟨u1, u2⟩ := mkBatchSummary_trend coin r
  exact ⟨a1, a2, a3, b1, b2, b3, t1, t2, t3, u1, u2⟩

/-! ### C8 — missing-column handling at the Indicator Engine boundary -/

/-- C8: a frame missing any required OHLCV column makes
`calculate_technical_indicators` report the incompatible input by returning
`None` (computing no indicators and raising nothing), and `analyze_all_coins`
skips exactly that instrument and continues with the remaining ones. -/
theorem c8_missing_column_skips (f : RawFrame) (col : String)
    (hmem : col ∈ required_columns) (hmiss : col ∉ f.columns)
    (c : String) (rest : List String) (data : String → Option RawFrame)
    (hc : data c = some f) :
    calculate_technical_indicators (some f) = none
    ∧ analyze_all_coins (c :: rest) data = analyze_all_coins rest data := by
  have hnone : calculate_technical_indicators (some f) = none := by
    rw [calculate_technical_indicators]
    by_cases hn : f.nrows = 0
    · rw [if_pos hn]
    · rw [if_neg hn, if_neg (fun hall => hmiss (hall col hmem))]
  refine ⟨hnone, ?_⟩
  rw [analyze_all_coins, hc, hnone]

/-- C8 witness: a frame missing "volume" is dropped; the rest of the batch
is processed unchanged. -/
theorem c8_witness :
    calculate_technical_indicators (some ⟨["close", "high", "low", "open"], 5⟩) = none
    ∧ analyze_all_coins ["A", "B"]
        (fun x => if x = "A" then some ⟨["close", "high", "low", "open"], 5⟩ else none) =
      analyze_all_coins ["B"]
        (fun x => if x = "A" then some ⟨["close", "high", "low", "open"], 5⟩ else none) :=
  c8_missing_column_skips ⟨["close", "high", "low", "open"], 5⟩ "volume"
    (by decide) (by decide) "A" ["B"] _ (by decide)

/-! ### C9 — ranked summary ordering -/

lemma buy_lt_hold : ("BUY" : String) < "HOLD" := by
  rw [String.lt_iff_toList_lt]; decide

lemma hold_lt_sell : ("HOLD" : String) < "SELL" := by
  rw [String.lt_iff_toList_lt]; decide

/-- C9 counterexample: the summaries are sorted by the signal column
ascending lexically, and lexically HOLD < SELL; so a HOLD entry sorts before
a SELL entry, contradicting the claimed BUY < SELL < HOLD primary order
(under which every SELL row precedes every HOLD row). -/
theorem c9_counterexample :
    sort_values (fun s : SignalSummary => s.signal) (fun s => s.confidence)
      [⟨"A", 100, "SELL", -0.3, 30, 50, "NEUTRAL"⟩, ⟨"B", 100, "HOLD", 0, 0, 50, "NEUTRAL"⟩] =
      [⟨"B", 100, "HOLD", 0, 0, 50, "NEUTRAL"⟩, ⟨"A", 100, "SELL", -0.3, 30, 50, "NEUTRAL"⟩]
    ∧ ("HOLD" : String) < "SELL" := by
  have hr : ¬ bySigConf (fun s : SignalSummary => s.signal) (fun s => s.confidence)
      ⟨"A", 100, "SELL", -0.3, 30, 50, "NEUTRAL"⟩ ⟨"B", 100, "HOLD", 0, 0, 50, "NEUTRAL"⟩ := by
    rintro (h | ⟨h, -⟩)
    · exact absurd h (not_lt.mpr hold_lt_sell.le)
    · exact absurd h (by decide)
  refine ⟨?_, hold_lt_sell⟩
  rw [sort_values]
  show List.orderedInsert _ _ (List.orderedInsert _ _ (List.insertionSort _ [])) = _
  rw [List.insertionSort, List.orderedInsert_nil, List.orderedInsert, if_neg hr,
    List.orderedInsert_nil]

/-- C9 (amended): every ranked summary table — the full-variant trading
signals summary, the entry/exit summary and the batch summary — is sorted
with primary key the signal label in ascending lexical order, which orders
BUY < HOLD < SELL (not BUY < SELL < HOLD), and secondary key confidence
descending within each signal group. -/
theorem c9_sorted_amended (coins : List String)
    (d1 : String → Option (List AnalysisRow))
    (d2 : String → Option (List StratRow))
    (d3 : String → Option (List BatchRow)) :
    List.Sorted (bySigConf (fun s : SignalSummary => s.signal) (fun s => s.confidence))
      (create_trading_strategies coins d1)
    ∧ List.Sorted (bySigConf (fun s : PointsSummary => s.signal) (fun s => s.confidence))
      (generate_all_entry_exit_points coins d2)
    ∧ List.Sorted (bySigConf (fun s : BatchSummary => s.signal) (fun s => s.confidence))
      (batch_process_cryptocurrencies coins d3)
    ∧ ("BUY" : String) < "HOLD" ∧ ("HOLD" : String) < "SELL" :=
  ⟨List.sorted_insertionSort _ _, List.sorted_insertionSort _ _,
    List.sorted_insertionSort _ _, buy_lt_hold, hold_lt_sell⟩

/-! ### C10 — HOLD instruments are omitted from the entry/exit summary -/

lemma points_entry_isSome (latest : StratRow) (rr : ℚ) :
    (points_for_latest latest rr).entry_point.isSome = true ↔
      latest.composite_signal ≠ 0 := by
  rw [points_for_latest]
  by_cases h1 : 0 < latest.composite_signal
  · rw [if_pos h1]
    exact iff_of_true rfl (ne_of_gt h1)
  · rw [if_neg h1]
    by_cases h2 : latest.composite_signal < 0
    · rw [if_pos h2]
      exact iff_of_true rfl (ne_of_lt h2)
    · rw [if_neg h2]
      exact iff_of_false (by decide)
        (fun hne => hne (le_antisymm (not_lt.mp h1) (not_lt.mp h2)))

lemma pointsSummaryFor_eq_some {data : String → Option (List StratRow)} {a : String}
    {s : PointsSummary} (h : pointsSummaryFor data a = some s) :
    s.coin = a ∧ ∃ df latest, data a = some df ∧ df.getLast? = some latest
      ∧ latest.composite_signal ≠ 0 := by
  rw [pointsSummaryFor] at h
  cases hd : data a with
  | none => rw [hd, Option.none_bind] at h; cases h
  | some df =>
    rw [hd, Option.some_bind] at h
    cases hl : df.getLast? with
    | none =>
      rw [generate_entry_exit_points, hl, Option.map_none', Option.none_bind] at h
      cases h
    | some latest =>
      rw [generate_entry_exit_points, hl, Option.map_some', Option.some_bind,
        Option.some_bind] at h
      by_cases hs : (points_for_latest latest default_risk_reward).entry_point.isSome = true
      · rw [if_pos hs] at h
        obtain rfl := (Option.some_injective _ h).symm
        exact ⟨rfl, df, latest, rfl, hl, (points_entry_isSome latest _).mp hs⟩
      · rw [if_neg hs] at h
        cases h

lemma pointsSummaryFor_of_nonhold {data : String → Option (List StratRow)} {a : String}
    {df : List StratRow} {latest : StratRow} (hd : data a = some df)
    (hl : df.getLast? = some latest) (hne : latest.composite_signal ≠ 0) :
    pointsSummaryFor data a =
      some (mkPointsSummary a latest (points_for_latest latest default_risk_reward)) := by
  rw [pointsSummaryFor, hd, Option.some_bind, generate_entry_exit_points, hl,
    Option.map_some', Option.some_bind, Option.some_bind,
    if_pos ((points_entry_isSome latest _).mpr hne)]

lemma signalSummaryFor_eq_some {data2 : String → Option (List AnalysisRow)} {a : String}
    {s : SignalSummary} (h : signalSummaryFor data2 a = some s) :
    s.coin = a ∧ ∃ df, data2 a = some df ∧ df ≠ [] := by
  rw [signalSummaryFor] at h
  cases hd : data2 a with
  | none => rw [hd, Option.none_bind] at h; cases h
  | some df =>
    rw [hd, Option.some_bind] at h
    cases df with
    | nil =>
      rw [generate_trading_signals, Option.none_bind] at h
      cases h
    | cons r rows =>
      have hg : generate_trading_signals (r :: rows) =
          some (signalRows none (r :: rows)) := rfl
      rw [hg, Option.some_bind] at h
      cases hl : (signalRows none (r :: rows)).getLast? with
      | none => rw [hl, Option.map_none'] at h; cases h
      | some latest =>
        rw [hl, Option.map_some'] at h
        obtain rfl := (Option.some_injective _ h).symm
        exact ⟨rfl, r :: rows, rfl, List.cons_ne_nil r rows⟩

lemma signalSummaryFor_of_nonempty {data2 : String → Option (List AnalysisRow)} {a : String}
    {df : List AnalysisRow} (hd : data2 a = some df) (hne : df ≠ []) :
    ∃ s, signalSummaryFor data2 a = some s ∧ s.coin = a := by
  cases df with
  | nil => exact absurd rfl hne
  | cons r rows =>
    have hg : generate_trading_signals (r :: rows) =
        some (signalRows none (r :: rows)) := rfl
    have hlist : signalRows none (r :: rows) =
        mkSignalRow none r :: signalRows (some r) rows := rfl
    cases hl : (signalRows none (r :: rows)).getLast? with
    | none =>
      rw [hlist] at hl
      simp at hl
    | some latest =>
      refine ⟨mkSignalSummary a latest, ?_, rfl⟩
      rw [signalSummaryFor, hd, Option.some_bind, hg, Option.some_bind, hl, Option.map_some']

/-- C10: an instrument appears in the ranked entry/exit summary — the table
the notification payload is built from — iff its strategy frame exists, is
non-empty and its latest composite signal is nonzero; HOLD instruments
(latest composite = 0) are omitted, even though every processed instrument
with a non-empty frame, HOLD included, appears in the trading-signals
summary. -/
theorem c10_hold_omitted (coins : List String) (c : String)
    (data : String → Option (List StratRow))
    (data2 : String → Option (List AnalysisRow)) :
    ((∃ s ∈ generate_all_entry_exit_points coins data, s.coin = c) ↔
      (c ∈ coins ∧ ∃ df latest, data c = some df ∧ df.getLast? = some latest
        ∧ latest.composite_signal ≠ 0))
    ∧ ((∃ s ∈ create_trading_strategies coins data2, s.coin = c) ↔
      (c ∈ coins ∧ ∃ df, data2 c = some df ∧ df ≠ [])) := by
  constructor
  · constructor
    · rintro ⟨s, hs, hcoin⟩
      rw [generate_all_entry_exit_points, sort_values, List.mem_insertionSort,
        collectPointsSummaries, List.mem_filterMap] at hs
      obtain ⟨a, ha, hfa⟩ := hs
      obtain ⟨hca, df, latest, h1, h2, h3⟩ := pointsSummaryFor_eq_some hfa
      obtain rfl : a = c := hca.symm.trans hcoin
      exact ⟨ha, df, latest, h1, h2, h3⟩
    · rintro ⟨hc, df, latest, h1, h2, h3⟩
      refine ⟨mkPointsSummary c latest (points_for_latest latest default_risk_reward),
        ?_, rfl⟩
      rw [generate_all_entry_exit_points, sort_values, List.mem_insertionSort,
        collectPointsSummaries, List.mem_filterMap]
      exact ⟨c, hc, pointsSummaryFor_of_nonhold h1 h2 h3⟩
  · constructor
    · rintro ⟨s, hs, hcoin⟩
      rw [create_trading_strategies, sort_values, List.mem_insertionSort,
        collectSignalSummaries, List.mem_filterMap] at hs
      obtain ⟨a, ha, hfa⟩ := hs
      obtain ⟨hca, df, h1, h2⟩ := signalSummaryFor_eq_some hfa
      obtain rfl : a = c := hca.symm.trans hcoin
      exact ⟨ha, df, h1, h2⟩
    · rintro ⟨hc, df, h1, h2⟩
      obtain ⟨s, hfa, hcoin⟩ := signalSummaryFor_of_nonempty h1 h2
      refine ⟨s, ?_, hcoin⟩
      rw [create_trading_strategies, sort_values, List.mem_insertionSort,
        collectSignalSummaries, List.mem_filterMap]
      exact ⟨c, hc, hfa⟩

end CryptoAnalysis



